import Mathlib

/-
Verification of the Telegram File Sender MCP server
(src/file_sender_server.py) against its specification.

The Python module is embedded shallowly:
  * exceptions become values of `PyErr` threaded through `Except`;
  * the process-wide mutable state (the cached `bot` global, the
    environment, the local filesystem, and the behaviour of the remote
    Telegram service) becomes an explicit state record `St`;
  * every call made to the remote service is recorded in an event trace,
    so that "no remote call was attempted" is an observable statement;
  * the remote service itself is an external collaborator: its interface
    is modelled from the spec's §6 interface description (bounded-count
    fetch of the most recent inbound updates; sends that either return a
    message or raise).
-/

namespace TgFileSender

/-- `TextContent(type="text", text=...)` from mcp.types: the single result
shape returned across the tool boundary. -/
structure TextContent where
  type : String
  text : String
deriving DecidableEq

/-- The argument mapping handed to a tool call.  `arguments.get(k)` on the
Python dict is `none` when the key is absent. -/
structure Arguments where
  chat_id : Option String
  file_path : Option String
  caption : Option String

/-- An inbound Telegram message, as far as the resolver looks at it:
`update.message.chat_id`. -/
structure TgIncoming where
  chat_id : Int
deriving DecidableEq

/-- One element of the result of `bot.get_updates`: an update event that
optionally carries an inbound message. -/
structure Update where
  message : Option TgIncoming
deriving DecidableEq

/-- The message object returned by a successful `send_document` /
`send_photo` remote call; the code reads its `chat_id` and `message_id`. -/
structure TgMessage where
  chat_id : String
  message_id : Int
deriving DecidableEq

/-- Python exceptions as the module distinguishes them: `TelegramError`
(caught separately), `ValueError` (raised by `get_bot` and by the unknown
tool branch), and any other exception.  `msg` is `str(e)`. -/
inductive PyErr where
  | telegramError (msg : String)
  | valueError (msg : String)
  | other (msg : String)
deriving DecidableEq

/-- `str(e)` of an exception: its message. -/
def PyErr.msg : PyErr → String
  | .telegramError m => m
  | .valueError m => m
  | .other m => m

/-- Observable calls made against the remote Telegram service. -/
inductive RemoteCall where
  | getUpdates (limit : Nat)
  | sendDocument (chat caption : String)
  | sendPhoto (chat caption : String)
deriving DecidableEq

/-- The remote Telegram service, at its interface boundary (spec §6):
a queue of pending inbound update events (oldest first), a possible
transport failure for the fetch, and the outcome of each send operation
as a function of destination identity and caption. -/
structure Remote where
  pendingUpdates : List Update
  fetchError : Option PyErr
  sendDocResult : String → String → Except PyErr TgMessage
  sendPhotoResult : String → String → Except PyErr TgMessage

/-- The `limit` most recent elements of an oldest-first event list. -/
def takeRecent (n : Nat) (l : List Update) : List Update :=
  (l.reverse.take n).reverse

/-- `bot.get_updates(limit=...)`: modelled from the spec's description of
the external interface (§6, "bounded-count fetch" of the most recent
inbound updates): returns up to `limit` of the most recent pending
events, oldest first, or raises on a transport failure. -/
def Remote.get_updates (r : Remote) (limit : Nat) : Except PyErr (List Update) :=
  match r.fetchError with
  | some e => .error e
  | none => .ok (takeRecent limit r.pendingUpdates)

/-- The lazily constructed `Bot` handle.  `birth` records which
construction produced the handle, so that reconstruction is
distinguishable from returning the cached instance. -/
structure BotHandle where
  token : String
  birth : Nat
deriving DecidableEq

/-- Process-wide state: the `TELEGRAM_BOT_TOKEN` environment variable,
the module-level `bot` global, the local filesystem (path to size in
bytes for existing files), the remote service, the trace of remote calls
made so far, and how many `Bot` constructions have happened. -/
structure St where
  token : Option String
  bot : Option BotHandle
  fs : String → Option Nat
  remote : Remote
  trace : List RemoteCall
  constructions : Nat

/-- Python truthiness of an optional string: `not x` is true for `None`
and for the empty string. -/
def falsyOptStr : Option String → Bool
  | none => true
  | some s => s == ""

/-- `os.path.basename` for POSIX paths: the part after the last slash. -/
def basename (p : String) : String :=
  (p.splitOn "/").getLastD ""

/-- `get_bot()` (src lines 27-35): returns the cached handle if present;
otherwise reads the token from the environment, raises
`ValueError("TELEGRAM_BOT_TOKEN environment variable is required")` when
it is absent or empty, and otherwise constructs and caches a new handle. -/
def get_bot (st : St) : Except PyErr BotHandle × St :=
  match st.bot with
  | some b => (.ok b, st)
  | none =>
    match st.token with
    | none =>
      (.error (.valueError "TELEGRAM_BOT_TOKEN environment variable is required"), st)
    | some t =>
      if t == "" then
        (.error (.valueError "TELEGRAM_BOT_TOKEN environment variable is required"), st)
      else
        (.ok ⟨t, st.constructions⟩,
          { st with bot := some ⟨t, st.constructions⟩,
                    constructions := st.constructions + 1 })

/-- The scan in `get_chat_id_from_updates`: over an already reversed
(most-recent-first) event list, the chat id of the first event carrying
a message. -/
def firstMessageChatId : List Update → Option String
  | [] => none
  | u :: rest =>
    match u.message with
    | some m => some (toString m.chat_id)
    | none => firstMessageChatId rest

/-- `get_chat_id_from_updates()` (src lines 38-51): obtains the bot,
fetches up to 100 updates, scans them newest first for one carrying a
message, and returns its chat id as a string; any exception is caught
and turned into `None`. -/
def get_chat_id_from_updates (st : St) : Option String × St :=
  match get_bot st with
  | (.error _, st1) => (none, st1)
  | (.ok _, st1) =>
    let st2 := { st1 with trace := st1.trace ++ [RemoteCall.getUpdates 100] }
    match st1.remote.get_updates 100 with
    | .error _ => (none, st2)
    | .ok updates => (firstMessageChatId updates.reverse, st2)

/-- The chat-id resolution step shared by both senders (src lines 66-70 /
103-107): keep an explicit truthy chat id; otherwise auto-detect, and
yield `none` when auto-detection comes back falsy. -/
def resolve_chat (chat_id : Option String) (st : St) : Option String × St :=
  if falsyOptStr chat_id then
    match get_chat_id_from_updates st with
    | (r, st1) => if falsyOptStr r then (none, st1) else (r, st1)
  else
    (chat_id, st)

/-- The `try` block of `send_document` (src lines 72-84): obtain the bot,
open the file, perform the remote document send, and build the success
text from base name, byte size, and the returned message's chat id and
message id.  Any raised exception is propagated as `.error`. -/
def send_document_try (p c cap : String) (st : St) :
    Except PyErr (List TextContent) × St :=
  match get_bot st with
  | (.error e, st1) => (.error e, st1)
  | (.ok _, st1) =>
    match st1.fs p with
    | none => (.error (.other ("[Errno 2] No such file or directory: " ++ p)), st1)
    | some _ =>
      let st2 := { st1 with trace := st1.trace ++ [RemoteCall.sendDocument c cap] }
      match st1.remote.sendDocResult c cap with
      | .error e => (.error e, st2)
      | .ok msg =>
        match st2.fs p with
        | none =>
          (.error (.other ("[Errno 2] No such file or directory: " ++ p)), st2)
        | some sz =>
          (.ok [⟨"text",
            "Document sent successfully!\nFile: " ++ basename p ++
            "\nSize: " ++ toString sz ++ " bytes\nChat ID: " ++ msg.chat_id ++
            "\nMessage ID: " ++ toString msg.message_id⟩], st2)

/-- `send_document(arguments)` (src lines 54-88). -/
def send_document (args : Arguments) (st : St) : List TextContent × St :=
  match args.file_path with
  | none => ([⟨"text", "Error: file_path is required"⟩], st)
  | some p =>
    if p == "" then
      ([⟨"text", "Error: file_path is required"⟩], st)
    else if (st.fs p).isNone then
      ([⟨"text", "Error: File not found: " ++ p⟩], st)
    else
      match resolve_chat args.chat_id st with
      | (none, st1) =>
        ([⟨"text", "Error: chat_id not provided and could not auto-detect. Please send a message to the bot first."⟩], st1)
      | (some c, st1) =>
        match send_document_try p c (args.caption.getD "") st1 with
        | (.ok r, st2) => (r, st2)
        | (.error (.telegramError m), st2) =>
          ([⟨"text", "Telegram error: " ++ m⟩], st2)
        | (.error e, st2) => ([⟨"text", "Error: " ++ e.msg⟩], st2)

/-- The `try` block of `send_photo` (src lines 109-120): like the
document one but a photo send, and the success text omits the size. -/
def send_photo_try (p c cap : String) (st : St) :
    Except PyErr (List TextContent) × St :=
  match get_bot st with
  | (.error e, st1) => (.error e, st1)
  | (.ok _, st1) =>
    match st1.fs p with
    | none => (.error (.other ("[Errno 2] No such file or directory: " ++ p)), st1)
    | some _ =>
      let st2 := { st1 with trace := st1.trace ++ [RemoteCall.sendPhoto c cap] }
      match st1.remote.sendPhotoResult c cap with
      | .error e => (.error e, st2)
      | .ok msg =>
        (.ok [⟨"text",
          "Photo sent successfully!\nFile: " ++ basename p ++
          "\nChat ID: " ++ msg.chat_id ++
          "\nMessage ID: " ++ toString msg.message_id⟩], st2)

/-- `send_photo(arguments)` (src lines 91-124). -/
def send_photo (args : Arguments) (st : St) : List TextContent × St :=
  match args.file_path with
  | none => ([⟨"text", "Error: file_path is required"⟩], st)
  | some p =>
    if p == "" then
      ([⟨"text", "Error: file_path is required"⟩], st)
    else if (st.fs p).isNone then
      ([⟨"text", "Error: File not found: " ++ p⟩], st)
    else
      match resolve_chat args.chat_id st with
      | (none, st1) =>
        ([⟨"text", "Error: chat_id not provided and could not auto-detect. Please send a message to the bot first."⟩], st1)
      | (some c, st1) =>
        match send_photo_try p c (args.caption.getD "") st1 with
        | (.ok r, st2) => (r, st2)
        | (.error (.telegramError m), st2) =>
          ([⟨"text", "Telegram error: " ++ m⟩], st2)
        | (.error e, st2) => ([⟨"text", "Error: " ++ e.msg⟩], st2)

/-- The `try` body of `call_tool` (src lines 183-189): dispatch by exact
name, raising `ValueError(f"Unknown tool: {name}")` for any other name. -/
def call_tool_body (name : String) (args : Arguments) (st : St) :
    Except PyErr (List TextContent) × St :=
  if name == "send_telegram_document" then
    match send_document args st with
    | (r, st1) => (.ok r, st1)
  else if name == "send_telegram_photo" then
    match send_photo args st with
    | (r, st1) => (.ok r, st1)
  else
    (.error (.valueError ("Unknown tool: " ++ name)), st)

/-- `call_tool(name, arguments)` (src lines 180-192): the dispatch with
its catch-all that renders any escaping exception as `"Error: " + str(e)`. -/
def call_tool (name : String) (args : Arguments) (st : St) :
    List TextContent × St :=
  match call_tool_body name args st with
  | (.ok r, st1) => (r, st1)
  | (.error e, st1) => ([⟨"text", "Error: " ++ e.msg⟩], st1)

/-- Spec-side definition of the Identity Resolver (spec §4.2), written
from the spec's words: scan the fetched events from most-recent to
least-recent and return the sender identity of the first event carrying
an inbound message; `none` when no event qualifies.  Events are listed
oldest first, so the scan walks the reversed list. -/
def specResolveLatest (events : List Update) : Option String :=
  ((events.reverse.find? (fun u => u.message.isSome)).bind
    (fun u => u.message)).map (fun m => toString m.chat_id)

/-! ## Helper lemmas -/

/-- Every normal return of the document `try` block is a one-element
text payload. -/
theorem send_document_try_ok_shape (p c cap : String) (st : St)
    (l : List TextContent) (st2 : St)
    (h : send_document_try p c cap st = (Except.ok l, st2)) :
    l.length = 1 ∧ ∀ x ∈ l, x.type = "text" := by
  unfold send_document_try at h
  repeat' split at h
  all_goals simp_all
  all_goals (rw [← h.1]; simp)

/-- Every normal return of the photo `try` block is a one-element text
payload. -/
theorem send_photo_try_ok_shape (p c cap : String) (st : St)
    (l : List TextContent) (st2 : St)
    (h : send_photo_try p c cap st = (Except.ok l, st2)) :
    l.length = 1 ∧ ∀ x ∈ l, x.type = "text" := by
  unfold send_photo_try at h
  repeat' split at h
  all_goals simp_all
  all_goals (rw [← h.1]; simp)

/-- `send_document` always returns a single text item. -/
theorem send_document_shape (args : Arguments) (st : St) :
    (send_document args st).1.length = 1 ∧
      ∀ x ∈ (send_document args st).1, x.type = "text" := by
  unfold send_document
  repeat' split
  all_goals
    first
    | (rename_i heq
       exact send_document_try_ok_shape _ _ _ _ _ _ heq)
    | simp_all

/-- `send_photo` always returns a single text item. -/
theorem send_photo_shape (args : Arguments) (st : St) :
    (send_photo args st).1.length = 1 ∧
      ∀ x ∈ (send_photo args st).1, x.type = "text" := by
  unfold send_photo
  repeat' split
  all_goals
    first
    | (rename_i heq
       exact send_photo_try_ok_shape _ _ _ _ _ _ heq)
    | simp_all

/-! ## Claims -/

/-- C1: for every argument mapping and state, `send_document` and
`send_photo` return a normal one-element text payload; no failure path
raises to the caller (the embedding's total return type reflects the
catch-all structure, and every branch yields exactly one text item). -/
theorem c1_senders_never_raise (args : Arguments) (st : St) :
    (send_document args st).1.length = 1 ∧
    (∀ x ∈ (send_document args st).1, x.type = "text") ∧
    (send_photo args st).1.length = 1 ∧
    (∀ x ∈ (send_photo args st).1, x.type = "text") :=
  ⟨(send_document_shape args st).1, (send_document_shape args st).2,
   (send_photo_shape args st).1, (send_photo_shape args st).2⟩

/-- A normal return of the dispatch body is one of the two senders'
results, hence a one-element payload. -/
theorem call_tool_body_ok_len (n : String) (a : Arguments) (s : St)
    (l : List TextContent) (st1 : St)
    (h : call_tool_body n a s = (Except.ok l, st1)) : l.length = 1 := by
  unfold call_tool_body at h
  split at h
  · rcases hsd : send_document a s with ⟨r, st2⟩
    rw [hsd] at h
    simp only [Prod.mk.injEq, Except.ok.injEq] at h
    have hlen := (send_document_shape a s).1
    rw [hsd] at hlen
    rw [← h.1]
    exact hlen
  · split at h
    · rcases hsp : send_photo a s with ⟨r, st2⟩
      rw [hsp] at h
      simp only [Prod.mk.injEq, Except.ok.injEq] at h
      have hlen := (send_photo_shape a s).1
      rw [hsp] at hlen
      rw [← h.1]
      exact hlen
    · simp at h

/-- `call_tool` always returns exactly one item. -/
theorem call_tool_shape (n : String) (a : Arguments) (s : St) :
    (call_tool n a s).1.length = 1 := by
  unfold call_tool
  split
  · rename_i l st1 heq
    exact call_tool_body_ok_len n a s l st1 heq
  · simp

/-- C2: an unrecognized tool name yields the single text
`"Error: Unknown tool: " ++ name` with the state untouched, and the
router's catch-all means `call_tool` always returns a normal one-element
text result. -/
theorem c2_unknown_tool_router (name : String) (args : Arguments) (st : St)
    (h1 : name ≠ "send_telegram_document") (h2 : name ≠ "send_telegram_photo") :
    call_tool name args st = ([⟨"text", "Error: " ++ ("Unknown tool: " ++ name)⟩], st)
    ∧ ∀ n a s, (call_tool n a s).1.length = 1 := by
  refine ⟨?_, fun n a s => call_tool_shape n a s⟩
  have hb1 : (name == "send_telegram_document") = false := by simp [h1]
  have hb2 : (name == "send_telegram_photo") = false := by simp [h2]
  unfold call_tool call_tool_body
  simp [hb1, hb2, PyErr.msg]

/-! Concrete fixtures used by the witness theorems. -/

/-- A remote service sample: no pending updates, no transport failure,
sends succeed echoing the destination identity with fixed message ids. -/
def wRemote : Remote :=
  ⟨[], none, fun c _ => .ok ⟨c, 7⟩, fun c _ => .ok ⟨c, 9⟩⟩

/-- A filesystem sample with a single 2048-byte file. -/
def wFs : String → Option Nat :=
  fun p => if p = "/tmp/report.pdf" then some 2048 else none

/-- A freshly started process state with a configured token. -/
def wSt : St := ⟨some "tok123", none, wFs, wRemote, [], 0⟩

/-- Arguments naming the existing file and an explicit chat id. -/
def wArgs : Arguments := ⟨some "42", some "/tmp/report.pdf", none⟩

/-- C2 witness at the concrete tool name `"bogus"`. -/
theorem c2_witness :
    call_tool "bogus" wArgs wSt =
      ([⟨"text", "Error: " ++ ("Unknown tool: " ++ "bogus")⟩], wSt)
    ∧ ∀ n a s, (call_tool n a s).1.length = 1 :=
  c2_unknown_tool_router "bogus" wArgs wSt (by decide) (by decide)

/-- C7: a missing or empty `file_path` yields the required-path error
and leaves the state untouched — no file check, resolution, or upload. -/
theorem c7_missing_file_path (args : Arguments) (st : St)
    (h : falsyOptStr args.file_path = true) :
    send_document args st = ([⟨"text", "Error: file_path is required"⟩], st) ∧
    send_photo args st = ([⟨"text", "Error: file_path is required"⟩], st) := by
  unfold send_document send_photo
  rcases hfp : args.file_path with _ | p
  · simp [hfp]
  · have hp : p = "" := by
      rw [hfp] at h
      simpa [falsyOptStr] using h
    subst hp
    simp [hfp]

/-- C7 witness: arguments with no `file_path` at all. -/
theorem c7_witness :
    send_document ⟨some "42", none, none⟩ wSt =
      ([⟨"text", "Error: file_path is required"⟩], wSt) ∧
    send_photo ⟨some "42", none, none⟩ wSt =
      ([⟨"text", "Error: file_path is required"⟩], wSt) :=
  c7_missing_file_path ⟨some "42", none, none⟩ wSt (by decide)

/-- C8: a non-empty path to a non-existent file yields the not-found
error naming the path and leaves the state untouched — no resolution or
upload. -/
theorem c8_file_not_found (args : Arguments) (st : St) (p : String)
    (hfp : args.file_path = some p) (hp : p ≠ "") (hfs : st.fs p = none) :
    send_document args st = ([⟨"text", "Error: File not found: " ++ p⟩], st) ∧
    send_photo args st = ([⟨"text", "Error: File not found: " ++ p⟩], st) := by
  unfold send_document send_photo
  simp [hfp, hp, hfs]

/-- C8 witness: a path absent from the sample filesystem. -/
theorem c8_witness :
    send_document ⟨some "42", some "/missing.txt", none⟩ wSt =
      ([⟨"text", "Error: File not found: " ++ "/missing.txt"⟩], wSt) ∧
    send_photo ⟨some "42", some "/missing.txt", none⟩ wSt =
      ([⟨"text", "Error: File not found: " ++ "/missing.txt"⟩], wSt) :=
  c8_file_not_found ⟨some "42", some "/missing.txt", none⟩ wSt "/missing.txt"
    rfl (by decide) (by simp [wSt, wFs])

/-- C10 (implicit): an explicitly supplied empty-string chat id behaves
exactly as an omitted one in both senders, because the code tests Python
truthiness rather than presence. -/
theorem c10_empty_chat_id_like_omitted (fp cap : Option String) (st : St) :
    send_document ⟨some "", fp, cap⟩ st = send_document ⟨none, fp, cap⟩ st ∧
    send_photo ⟨some "", fp, cap⟩ st = send_photo ⟨none, fp, cap⟩ st := by
  have hrc : resolve_chat (some "") st = resolve_chat none st := by
    unfold resolve_chat
    simp [falsyOptStr]
  constructor
  · unfold send_document
    simp only [hrc]
  · unfold send_photo
    simp only [hrc]

/-- `get_bot` only ever touches the `bot` cache and the construction
counter. -/
theorem get_bot_fields (st : St) :
    (get_bot st).2.fs = st.fs ∧ (get_bot st).2.remote = st.remote ∧
    (get_bot st).2.trace = st.trace ∧ (get_bot st).2.token = st.token := by
  unfold get_bot
  repeat' split
  all_goals simp

/-- The resolver leaves the filesystem and the remote service as they
were. -/
theorem resolver_fields (st : St) :
    (get_chat_id_from_updates st).2.fs = st.fs ∧
    (get_chat_id_from_updates st).2.remote = st.remote := by
  have h := get_bot_fields st
  unfold get_chat_id_from_updates
  rcases hgb : get_bot st with ⟨r, st1⟩
  rw [hgb] at h
  rcases r with e | b
  · simpa using ⟨h.1, h.2.1⟩
  · rcases hgu : st1.remote.get_updates 100 with e | ups <;>
      simp [hgu] <;> exact ⟨h.1, h.2.1⟩

/-- The resolver either makes no remote call (when obtaining the client
fails) or appends exactly one bounded fetch to the trace. -/
theorem resolver_trace (st : St) :
    (get_chat_id_from_updates st).2.trace = st.trace ∨
    (get_chat_id_from_updates st).2.trace =
      st.trace ++ [RemoteCall.getUpdates 100] := by
  have h := (get_bot_fields st).2.2.1
  unfold get_chat_id_from_updates
  rcases hgb : get_bot st with ⟨r, st1⟩
  rw [hgb] at h
  rcases r with e | b
  · left
    simpa using h
  · right
    rcases hgu : st1.remote.get_updates 100 with e | ups <;>
      simp [hgu] <;> rw [h]

/-- Chat resolution leaves the filesystem and the remote service as they
were. -/
theorem resolve_chat_fields (chat : Option String) (st : St) :
    (resolve_chat chat st).2.fs = st.fs ∧
    (resolve_chat chat st).2.remote = st.remote := by
  unfold resolve_chat
  split
  · have h := resolver_fields st
    rcases hg : get_chat_id_from_updates st with ⟨r, st1⟩
    rw [hg] at h
    simp only [hg]
    split <;> simpa using h
  · simp

/-- The code's newest-first scan agrees with `List.find?` over the same
list. -/
theorem firstMessageChatId_eq_find (l : List Update) :
    firstMessageChatId l =
      ((l.find? (fun u => u.message.isSome)).bind (fun u => u.message)).map
        (fun m => toString m.chat_id) := by
  induction l with
  | nil => rfl
  | cons u rest ih =>
    unfold firstMessageChatId
    rcases hm : u.message with _ | m
    · rw [List.find?_cons_of_neg]
      · simp only [hm]
        exact ih
      · simp [hm]
    · rw [List.find?_cons_of_pos]
      · simp [hm]
      · simp [hm]

/-- C3: when the client is obtainable and the fetch does not fail, the
resolver's answer is exactly the spec-side most-recent-sender scan over
the (at most 100 long) fetched suffix of the pending update events. -/
theorem c3_resolver_scans_recent (st : St)
    (hbot : ∃ b st1, get_bot st = (Except.ok b, st1))
    (hfetch : st.remote.fetchError = none) :
    (get_chat_id_from_updates st).1 =
      specResolveLatest (takeRecent 100 st.remote.pendingUpdates) ∧
    (takeRecent 100 st.remote.pendingUpdates).length ≤ 100 := by
  obtain ⟨b, st1, hgb⟩ := hbot
  have h := (get_bot_fields st).2.1
  rw [hgb] at h
  simp only at h
  constructor
  · unfold get_chat_id_from_updates
    rw [hgb]
    simp only [Remote.get_updates, h, hfetch]
    rw [specResolveLatest, firstMessageChatId_eq_find]
  · unfold takeRecent
    simp only [List.length_reverse, List.length_take]
    exact min_le_left _ _

/-- C3 witness at the sample state (no pending updates). -/
theorem c3_witness :
    (get_chat_id_from_updates wSt).1 =
      specResolveLatest (takeRecent 100 wSt.remote.pendingUpdates) ∧
    (takeRecent 100 wSt.remote.pendingUpdates).length ≤ 100 :=
  c3_resolver_scans_recent wSt ⟨_, _, rfl⟩ rfl

/-- C4: any failure while obtaining the client or fetching updates is
swallowed by the resolver, which returns `none` instead of raising. -/
theorem c4_resolver_swallows_failures (st : St)
    (h : (∃ e, (get_bot st).1 = Except.error e) ∨
         (∃ e, st.remote.fetchError = some e)) :
    (get_chat_id_from_updates st).1 = none := by
  have hrem := (get_bot_fields st).2.1
  unfold get_chat_id_from_updates
  rcases hgb : get_bot st with ⟨r, st1⟩
  rw [hgb] at hrem
  simp only at hrem
  rcases r with e | b
  · simp
  · rcases h with ⟨e, he⟩ | ⟨e, he⟩
    · rw [hgb] at he
      simp at he
    · simp [Remote.get_updates, hrem, he]

/-- A state with no credential configured and no cached handle. -/
def wStNoTok : St := ⟨none, none, wFs, wRemote, [], 0⟩

/-- C4 witness: with no credential, obtaining the client raises and the
resolver still answers `none`. -/
theorem c4_witness : (get_chat_id_from_updates wStNoTok).1 = none :=
  c4_resolver_swallows_failures wStNoTok
    (Or.inl ⟨PyErr.valueError "TELEGRAM_BOT_TOKEN environment variable is required", rfl⟩)

/-- C9: `get_bot` is idempotent and memoizing.  A cached handle is
returned unchanged; with a non-empty credential and an empty cache, the
first call constructs and caches a handle (bumping the construction
counter once) and an immediately repeated call returns that same handle
without touching the state again; with the credential absent or empty
and nothing cached, it raises the configuration `ValueError`. -/
theorem c9_get_bot_memoizing (st : St) (t : String) :
    (∀ b, st.bot = some b → get_bot st = (Except.ok b, st)) ∧
    (st.token = some t → t ≠ "" → st.bot = none →
      get_bot st = (Except.ok ⟨t, st.constructions⟩,
        { st with bot := some ⟨t, st.constructions⟩,
                  constructions := st.constructions + 1 }) ∧
      get_bot { st with bot := some ⟨t, st.constructions⟩,
                        constructions := st.constructions + 1 } =
        (Except.ok ⟨t, st.constructions⟩,
          { st with bot := some ⟨t, st.constructions⟩,
                    constructions := st.constructions + 1 })) ∧
    ((st.token = none ∨ st.token = some "") → st.bot = none →
      get_bot st =
        (Except.error
          (PyErr.valueError "TELEGRAM_BOT_TOKEN environment variable is required"),
         st)) := by
  refine ⟨?_, ?_, ?_⟩
  · intro b hb
    unfold get_bot
    rw [hb]
  · intro h1 h2 h3
    constructor
    · unfold get_bot
      rw [h3, h1]
      simp [h2]
    · unfold get_bot
      rfl
  · intro h1 h2
    unfold get_bot
    rw [h2]
    rcases h1 with h1 | h1 <;> simp [h1]

/-- The state after the first construction at the sample state. -/
def wStAfter : St :=
  ⟨some "tok123", some ⟨"tok123", 0⟩, wFs, wRemote, [], 1⟩

/-- C9 witness: first call constructs, second call returns the cached
instance unchanged; the unconfigured sample state raises. -/
theorem c9_witness :
    get_bot wSt = (Except.ok ⟨"tok123", 0⟩, wStAfter) ∧
    get_bot wStAfter = (Except.ok ⟨"tok123", 0⟩, wStAfter) ∧
    get_bot wStNoTok =
      (Except.error
        (PyErr.valueError "TELEGRAM_BOT_TOKEN environment variable is required"),
       wStNoTok) := by
  have h := (c9_get_bot_memoizing wSt "tok123").2.1 rfl (by decide) rfl
  exact ⟨h.1, h.2,
    (c9_get_bot_memoizing wStNoTok "tok123").2.2 (Or.inl rfl) rfl⟩

/-- C6: with an omitted (or falsy) chat id, an existing file, and a
resolution that comes back empty, both senders return the
could-not-auto-detect error text, and the only remote call possibly made
is the resolver's bounded fetch — never an upload. -/
theorem c6_unresolved_identity (args : Arguments) (st : St) (p : String) (sz : Nat)
    (hchat : falsyOptStr args.chat_id = true)
    (hfp : args.file_path = some p) (hp : p ≠ "")
    (hfs : st.fs p = some sz)
    (hres : (get_chat_id_from_updates st).1 = none) :
    (send_document args st).1 =
      [⟨"text", "Error: chat_id not provided and could not auto-detect. Please send a message to the bot first."⟩] ∧
    (send_photo args st).1 =
      [⟨"text", "Error: chat_id not provided and could not auto-detect. Please send a message to the bot first."⟩] ∧
    ((send_document args st).2.trace = st.trace ∨
      (send_document args st).2.trace = st.trace ++ [RemoteCall.getUpdates 100]) ∧
    ((send_photo args st).2.trace = st.trace ∨
      (send_photo args st).2.trace = st.trace ++ [RemoteCall.getUpdates 100]) := by
  have hrc : resolve_chat args.chat_id st = (none, (get_chat_id_from_updates st).2) := by
    unfold resolve_chat
    rw [if_pos hchat]
    rcases hg : get_chat_id_from_updates st with ⟨r, st1⟩
    rw [hg] at hres
    simp only at hres
    subst hres
    simp
  have hsd : send_document args st =
      ([⟨"text", "Error: chat_id not provided and could not auto-detect. Please send a message to the bot first."⟩],
        (get_chat_id_from_updates st).2) := by
    unfold send_document
    simp [hfp, hp, hfs, hrc]
  have hsp : send_photo args st =
      ([⟨"text", "Error: chat_id not provided and could not auto-detect. Please send a message to the bot first."⟩],
        (get_chat_id_from_updates st).2) := by
    unfold send_photo
    simp [hfp, hp, hfs, hrc]
  rw [hsd, hsp]
  exact ⟨rfl, rfl, resolver_trace st, resolver_trace st⟩

/-- C6 witness: no chat id supplied and an empty pending-update queue. -/
theorem c6_witness :
    (send_document ⟨none, some "/tmp/report.pdf", none⟩ wSt).1 =
      [⟨"text", "Error: chat_id not provided and could not auto-detect. Please send a message to the bot first."⟩] ∧
    (send_photo ⟨none, some "/tmp/report.pdf", none⟩ wSt).1 =
      [⟨"text", "Error: chat_id not provided and could not auto-detect. Please send a message to the bot first."⟩] ∧
    ((send_document ⟨none, some "/tmp/report.pdf", none⟩ wSt).2.trace = wSt.trace ∨
      (send_document ⟨none, some "/tmp/report.pdf", none⟩ wSt).2.trace =
        wSt.trace ++ [RemoteCall.getUpdates 100]) ∧
    ((send_photo ⟨none, some "/tmp/report.pdf", none⟩ wSt).2.trace = wSt.trace ∨
      (send_photo ⟨none, some "/tmp/report.pdf", none⟩ wSt).2.trace =
        wSt.trace ++ [RemoteCall.getUpdates 100]) :=
  c6_unresolved_identity ⟨none, some "/tmp/report.pdf", none⟩ wSt
    "/tmp/report.pdf" 2048 rfl rfl (by decide) (by decide) rfl

/-- C5: for an existing file and an identity `c` (explicit, or resolved
when omitted) whose remote document upload succeeds — with the remote
echoing the destination identity, as the external interface guarantees —
the success text carries the file's base name, its exact byte size, the
identity used, and the remote message identifier. -/
theorem c5_document_success_text (args : Arguments) (st st1 st2 : St)
    (p c : String) (sz : Nat) (msg : TgMessage) (b : BotHandle)
    (hfp : args.file_path = some p) (hp : p ≠ "")
    (hfs : st.fs p = some sz)
    (hres : resolve_chat args.chat_id st = (some c, st1))
    (hgb : get_bot st1 = (Except.ok b, st2))
    (hsend : st.remote.sendDocResult c (args.caption.getD "") = Except.ok msg)
    (hecho : msg.chat_id = c) :
    (send_document args st).1 =
      [⟨"text", "Document sent successfully!\nFile: " ++ basename p ++
        "\nSize: " ++ toString sz ++ " bytes\nChat ID: " ++ c ++
        "\nMessage ID: " ++ toString msg.message_id⟩] := by
  have h1 := resolve_chat_fields args.chat_id st
  rw [hres] at h1
  simp only at h1
  have h2 := get_bot_fields st1
  rw [hgb] at h2
  simp only at h2
  have hfs2 : st2.fs p = some sz := by rw [h2.1, h1.1, hfs]
  have hsend2 : st2.remote.sendDocResult c (args.caption.getD "") = Except.ok msg := by
    rw [h2.2.1, h1.2, hsend]
  unfold send_document send_document_try
  simp [hfp, hp, hfs, hres, hgb, hfs2, hsend2, hecho]

/-- C5 witness: the sample request, explicit chat id `"42"`, a
2048-byte file, remote message id 7. -/
theorem c5_witness :
    (send_document wArgs wSt).1 =
      [⟨"text", "Document sent successfully!\nFile: " ++ basename "/tmp/report.pdf" ++
        "\nSize: " ++ toString 2048 ++ " bytes\nChat ID: " ++ "42" ++
        "\nMessage ID: " ++ toString (7 : Int)⟩] :=
  c5_document_success_text wArgs wSt wSt wStAfter "/tmp/report.pdf" "42" 2048
    ⟨"42", 7⟩ ⟨"tok123", 0⟩ rfl (by decide) (by decide) rfl rfl rfl rfl

/-- C1 witness: the sample request against the sample state. -/
theorem c1_witness :
    (send_document wArgs wSt).1.length = 1 ∧
    (∀ x ∈ (send_document wArgs wSt).1, x.type = "text") ∧
    (send_photo wArgs wSt).1.length = 1 ∧
    (∀ x ∈ (send_photo wArgs wSt).1, x.type = "text") :=
  c1_senders_never_raise wArgs wSt

/-- C10 witness: concrete file path and caption. -/
theorem c10_witness :
    send_document ⟨some "", some "/tmp/report.pdf", none⟩ wSt =
      send_document ⟨none, some "/tmp/report.pdf", none⟩ wSt ∧
    send_photo ⟨some "", some "/tmp/report.pdf", none⟩ wSt =
      send_photo ⟨none, some "/tmp/report.pdf", none⟩ wSt :=
  c10_empty_chat_id_like_omitted (some "/tmp/report.pdf") none wSt

end TgFileSender
